import Mathlib

/-!
Shallow embedding of the durable file-management layer of the repository
(src/src/uv_fs.c and src/src/heap.c).

The OS syscall layer (open, close, unlink, rename, truncate, fsync,
posix_fallocate, path join) is an external collaborator; its results are
supplied by an oracle and every call the code performs is recorded, in
program order, in a trace of actions.  Error messages produced by the
error-formatting collaborator are structured values (operation label and
OS code, or the literal "canceled" message); releasing one with HeapFree
is also recorded in the trace, so ownership claims are statements about
which release actions a run performs.
-/

namespace Raft

/-- Modelled from the spec: the error-formatting collaborator produces an
owned message from an operation label and an OS error code (uvSysErrMsg),
or the literal "canceled" message (errMsgPrintf "canceled"). -/
inductive Msg where
  | sysErr (op : String) (code : Int)
  | canceled
  deriving DecidableEq

/-- One observable step of a run: a syscall performed by the code (with the
oracle-supplied result it returned) or a heap release of an owned message. -/
inductive Action where
  | aOpen (path : String) (res : Int)
  | aClose (fd : Int)
  | aFsync (fd : Int) (res : Int)
  | aFallocate (fd : Int) (size : Nat) (res : Int)
  | aTruncate (fd : Int) (size : Nat) (res : Int)
  | aUnlink (path : String) (res : Int)
  | aRename (path1 path2 : String) (res : Int)
  | aFree (m : Msg)
  deriving DecidableEq

/-- Modelled from the spec: the syscall layer returns, for each call, a
normalized status (negative on failure for open, nonzero on failure for the
rest); an oracle fixes those results for a run. -/
structure OsOracle where
  openRes : String → Int
  fallocateRes : Int → Nat → Int
  fsyncRes : Int → Int
  truncateRes : Int → Nat → Int
  unlinkRes : String → Int
  renameRes : String → String → Int

/-- Modelled from the spec: UvOsJoin joins directory and filename into a
single path. -/
def UvOsJoin (dir filename : String) : String :=
  dir ++ "/" ++ filename

/-- Modelled from the spec: the generic error status (UV__ERROR of
uv_error.h), a nonzero code distinct from success. -/
def UV__ERROR : Int := -1

/-- Modelled from the spec: the cancellation status (UV__CANCELED of
uv_error.h), a nonzero code distinct from both success and UV__ERROR. -/
def UV__CANCELED : Int := -2

/-- heap.c HeapFree: free(ptr) guarded by a NULL check, so releasing an
absent message performs no action at all. -/
def HeapFree : Option Msg → List Action
  | none => []
  | some m => [Action.aFree m]

/-- uv_fs.c struct UvFs: the filesystem context, owning the event-loop
handle and the most recent error message. -/
structure UvFs where
  loop : Nat
  errmsg : Option Msg
  deriving DecidableEq

/-- uv_fs.c UvFsInit: store the loop handle and clear the error message. -/
def UvFsInit (loop : Nat) : UvFs :=
  { loop := loop, errmsg := none }

/-- uv_fs.c UvFsClose: release the stored error message (the trace of
releases it performs). -/
def UvFsClose (fs : UvFs) : List Action :=
  HeapFree fs.errmsg

/-- uv_fs.c UvFsErrMsg: read-only accessor of the stored message. -/
def UvFsErrMsg (fs : UvFs) : Option Msg :=
  fs.errmsg

/-- uv_fs.c UvFsSetErrMsg: release the previous message, then store the new
one.  Returns the updated context and the release actions performed. -/
def UvFsSetErrMsg (fs : UvFs) (errmsg : Option Msg) : UvFs × List Action :=
  ({ fs with errmsg := errmsg }, HeapFree fs.errmsg)

/-- Result of uvFsSyncDirThreadSafe: the returned status, what (if anything)
was written through the errmsg out-parameter, and the syscalls performed. -/
structure DirSyncResult where
  rv : Int
  msgOut : Option Msg
  trace : List Action
  deriving DecidableEq

/-- uv_fs.c uvFsSyncDirThreadSafe: open the directory read-only; on failure
return UV__ERROR with an "open directory" message.  Otherwise fsync the
descriptor, close it regardless, and return UV__ERROR with an
"fsync directory" message when the fsync failed, success otherwise. -/
def uvFsSyncDirThreadSafe (o : OsOracle) (dir : String) : DirSyncResult :=
  let fd := o.openRes dir
  if fd < 0 then
    { rv := UV__ERROR
      msgOut := some (Msg.sysErr "open directory" fd)
      trace := [Action.aOpen dir fd] }
  else
    let rv := o.fsyncRes fd
    if rv ≠ 0 then
      { rv := UV__ERROR
        msgOut := some (Msg.sysErr "fsync directory" rv)
        trace := [Action.aOpen dir fd, Action.aFsync fd rv, Action.aClose fd] }
    else
      { rv := 0
        msgOut := none
        trace := [Action.aOpen dir fd, Action.aFsync fd rv, Action.aClose fd] }

/-- Result of a context-level operation: status, updated context, trace. -/
structure FsOpResult where
  rv : Int
  fs : UvFs
  trace : List Action
  deriving DecidableEq

/-- uv_fs.c uvFsSyncDir: calls uvFsSyncDirThreadSafe passing &fs->errmsg as
the out-parameter, so a message written by the callee replaces fs.errmsg
directly, with no release of the previous message. -/
def uvFsSyncDir (o : OsOracle) (fs : UvFs) (dir : String) : FsOpResult :=
  let r := uvFsSyncDirThreadSafe o dir
  let fs2 := match r.msgOut with
    | some m => { fs with errmsg := some m }
    | none => fs
  { rv := r.rv, fs := fs2, trace := r.trace }

/-- Result of UvFsCreateFile2: status, updated context, the value written to
the fd out-parameter (written as soon as the open succeeds, even on a later
failure path), and the trace. -/
structure CreateSyncResult where
  rv : Int
  fs : UvFs
  fdOut : Option Int
  trace : List Action
  deriving DecidableEq

/-- uv_fs.c UvFsCreateFile2: join the path, open with O_WRONLY|O_CREAT|O_EXCL,
preallocate size bytes, then sync the directory.  An open failure reports an
"open" error; a preallocation or directory-sync failure closes the descriptor,
unlinks the path and reports the error; every error is stored in the context
via UvFsSetErrMsg. -/
def UvFsCreateFile2 (o : OsOracle) (fs : UvFs) (dir filename : String)
    (size : Nat) : CreateSyncResult :=
  let path := UvOsJoin dir filename
  let orv := o.openRes path
  if orv < 0 then
    let p := UvFsSetErrMsg fs (some (Msg.sysErr "open" orv))
    { rv := UV__ERROR, fs := p.1, fdOut := none
      trace := [Action.aOpen path orv] ++ p.2 }
  else
    let fd := orv
    let frv := o.fallocateRes fd size
    if frv ≠ 0 then
      let p := UvFsSetErrMsg fs (some (Msg.sysErr "posix_fallocate" frv))
      { rv := UV__ERROR, fs := p.1, fdOut := some fd
        trace := [Action.aOpen path orv, Action.aFallocate fd size frv,
                  Action.aClose fd, Action.aUnlink path (o.unlinkRes path)]
                 ++ p.2 }
    else
      let r := uvFsSyncDirThreadSafe o dir
      if r.rv ≠ 0 then
        let p := UvFsSetErrMsg fs r.msgOut
        { rv := r.rv, fs := p.1, fdOut := some fd
          trace := [Action.aOpen path orv, Action.aFallocate fd size frv]
                   ++ r.trace
                   ++ [Action.aClose fd, Action.aUnlink path (o.unlinkRes path)]
                   ++ p.2 }
      else
        { rv := 0, fs := fs, fdOut := some fd
          trace := [Action.aOpen path orv, Action.aFallocate fd size frv]
                   ++ r.trace }

/-- uv_fs.c struct UvFsCreateFile: the asynchronous creation request: inputs
(dir, filename, size), the cancellation flag, whether a completion callback
was supplied, and the outcome fields the worker writes (errmsg, status, fd). -/
structure CreateReq where
  dir : String
  filename : String
  size : Nat
  canceled : Bool
  hasCb : Bool
  errmsg : Option Msg
  status : Int
  fd : Int
  deriving DecidableEq

/-- Result of the worker callback: the mutated request and its syscalls. -/
structure WorkerResult where
  req : CreateReq
  trace : List Action
  deriving DecidableEq

/-- uv_fs.c uvFsCreateFileWorkCb: the worker-thread body of asynchronous
creation; the same syscall sequence as UvFsCreateFile2, but the outcome
(status, fd, errmsg) is recorded in the request object (fd only on
success). -/
def uvFsCreateFileWorkCb (o : OsOracle) (req : CreateReq) : WorkerResult :=
  let path := UvOsJoin req.dir req.filename
  let orv := o.openRes path
  if orv < 0 then
    { req := { req with errmsg := some (Msg.sysErr "open" orv)
                        status := UV__ERROR }
      trace := [Action.aOpen path orv] }
  else
    let fd := orv
    let frv := o.fallocateRes fd req.size
    if frv ≠ 0 then
      { req := { req with errmsg := some (Msg.sysErr "posix_fallocate" frv)
                          status := UV__ERROR }
        trace := [Action.aOpen path orv, Action.aFallocate fd req.size frv,
                  Action.aClose fd, Action.aUnlink path (o.unlinkRes path)] }
    else
      let r := uvFsSyncDirThreadSafe o req.dir
      if r.rv ≠ 0 then
        { req := { req with errmsg := r.msgOut, status := r.rv }
          trace := [Action.aOpen path orv, Action.aFallocate fd req.size frv]
                   ++ r.trace
                   ++ [Action.aClose fd,
                       Action.aUnlink path (o.unlinkRes path)] }
      else
        { req := { req with errmsg := none, status := 0, fd := fd }
          trace := [Action.aOpen path orv, Action.aFallocate fd req.size frv]
                   ++ r.trace }

/-- Result of the after-work callback: final context, final request, the
status handed to the completion callback (none when no callback was set),
and the actions performed during finalization. -/
structure AfterWorkResult where
  fs : UvFs
  req : CreateReq
  cbStatus : Option Int
  trace : List Action
  deriving DecidableEq

/-- uv_fs.c uvFsCreateFileAfterWorkCb: control-thread finalization.  If the
request was canceled: on worker success close the descriptor and unlink the
created file, on worker failure release the worker's message; either way
substitute the "canceled" message and the UV__CANCELED status.  Then transfer
the request's message to the context via UvFsSetErrMsg and invoke the
callback (when set) with the request's status. -/
def uvFsCreateFileAfterWorkCb (o : OsOracle) (fs : UvFs) (req : CreateReq) :
    AfterWorkResult :=
  let step :=
    if req.canceled then
      if req.status = 0 then
        let path := UvOsJoin req.dir req.filename
        ({ req with errmsg := some Msg.canceled, status := UV__CANCELED },
         [Action.aClose req.fd, Action.aUnlink path (o.unlinkRes path)])
      else
        ({ req with errmsg := some Msg.canceled, status := UV__CANCELED },
         HeapFree req.errmsg)
    else (req, [])
  let req1 := step.1
  let p := UvFsSetErrMsg fs req1.errmsg
  { fs := p.1
    req := req1
    cbStatus := if req.hasCb then some req1.status else none
    trace := step.2 ++ p.2 }

/-- uv_fs.c UvFsRemoveFile: unlink the joined path; on failure store an
"unlink" error and return UV__ERROR.  On success sync the directory and
return success regardless of the sync's outcome. -/
def UvFsRemoveFile (o : OsOracle) (fs : UvFs) (dir filename : String) :
    FsOpResult :=
  let path := UvOsJoin dir filename
  let rv := o.unlinkRes path
  if rv ≠ 0 then
    let p := UvFsSetErrMsg fs (some (Msg.sysErr "unlink" rv))
    { rv := UV__ERROR, fs := p.1, trace := [Action.aUnlink path rv] ++ p.2 }
  else
    let s := uvFsSyncDir o fs dir
    { rv := 0, fs := s.fs, trace := [Action.aUnlink path rv] ++ s.trace }

/-- uv_fs.c UvFsTruncateAndRenameFile: with size zero, unlink the source and
sync the directory.  Otherwise open the source read-write, truncate it,
fsync it, close it, rename it to the destination, and sync the directory;
any failure closes the descriptor when one is open and stores the error via
UvFsSetErrMsg. -/
def UvFsTruncateAndRenameFile (o : OsOracle) (fs : UvFs) (dir : String)
    (size : Nat) (filename1 filename2 : String) : FsOpResult :=
  let path1 := UvOsJoin dir filename1
  let path2 := UvOsJoin dir filename2
  if size = 0 then
    let rv := o.unlinkRes path1
    if rv ≠ 0 then
      let p := UvFsSetErrMsg fs (some (Msg.sysErr "unlink" rv))
      { rv := UV__ERROR, fs := p.1
        trace := [Action.aUnlink path1 rv] ++ p.2 }
    else
      let s := uvFsSyncDir o fs dir
      { rv := s.rv, fs := s.fs
        trace := [Action.aUnlink path1 rv] ++ s.trace }
  else
    let orv := o.openRes path1
    if orv < 0 then
      let p := UvFsSetErrMsg fs (some (Msg.sysErr "open" orv))
      { rv := UV__ERROR, fs := p.1
        trace := [Action.aOpen path1 orv] ++ p.2 }
    else
      let fd := orv
      let trv := o.truncateRes fd size
      if trv ≠ 0 then
        let p := UvFsSetErrMsg fs (some (Msg.sysErr "truncate" trv))
        { rv := UV__ERROR, fs := p.1
          trace := [Action.aOpen path1 orv, Action.aTruncate fd size trv,
                    Action.aClose fd] ++ p.2 }
      else
        let frv := o.fsyncRes fd
        if frv ≠ 0 then
          let p := UvFsSetErrMsg fs (some (Msg.sysErr "fsync" frv))
          { rv := UV__ERROR, fs := p.1
            trace := [Action.aOpen path1 orv, Action.aTruncate fd size trv,
                      Action.aFsync fd frv, Action.aClose fd] ++ p.2 }
        else
          let rrv := o.renameRes path1 path2
          if rrv ≠ 0 then
            let p := UvFsSetErrMsg fs (some (Msg.sysErr "rename" rrv))
            { rv := UV__ERROR, fs := p.1
              trace := [Action.aOpen path1 orv, Action.aTruncate fd size trv,
                        Action.aFsync fd frv, Action.aClose fd,
                        Action.aRename path1 path2 rrv] ++ p.2 }
          else
            let s := uvFsSyncDir o fs dir
            { rv := s.rv, fs := s.fs
              trace := [Action.aOpen path1 orv, Action.aTruncate fd size trv,
                        Action.aFsync fd frv, Action.aClose fd,
                        Action.aRename path1 path2 rrv] ++ s.trace }

/-- Whether an action is a heap release. -/
def Action.isFree : Action → Bool
  | .aOpen _ _ => false
  | .aClose _ => false
  | .aFsync _ _ => false
  | .aFallocate _ _ _ => false
  | .aTruncate _ _ _ => false
  | .aUnlink _ _ => false
  | .aRename _ _ _ => false
  | .aFree _ => true

/-- Whether an action is an unlink syscall. -/
def Action.isUnlink : Action → Bool
  | .aOpen _ _ => false
  | .aClose _ => false
  | .aFsync _ _ => false
  | .aFallocate _ _ _ => false
  | .aTruncate _ _ _ => false
  | .aUnlink _ _ => true
  | .aRename _ _ _ => false
  | .aFree _ => false

/-- Whether an action is a truncate syscall. -/
def Action.isTruncate : Action → Bool
  | .aOpen _ _ => false
  | .aClose _ => false
  | .aFsync _ _ => false
  | .aFallocate _ _ _ => false
  | .aTruncate _ _ _ => true
  | .aUnlink _ _ => false
  | .aRename _ _ _ => false
  | .aFree _ => false

/-- Whether an action is a rename syscall. -/
def Action.isRename : Action → Bool
  | .aOpen _ _ => false
  | .aClose _ => false
  | .aFsync _ _ => false
  | .aFallocate _ _ _ => false
  | .aTruncate _ _ _ => false
  | .aUnlink _ _ => false
  | .aRename _ _ _ => true
  | .aFree _ => false

/-- Whether an action opens the given path. -/
def Action.opensPath (p : String) : Action → Bool
  | .aOpen q _ => p == q
  | .aClose _ => false
  | .aFsync _ _ => false
  | .aFallocate _ _ _ => false
  | .aTruncate _ _ _ => false
  | .aUnlink _ _ => false
  | .aRename _ _ _ => false
  | .aFree _ => false

/-- Whether an action touches the given path at all (opens, unlinks, or
renames from or to it). -/
def Action.mentionsPath (p : String) : Action → Bool
  | .aOpen q _ => p == q
  | .aClose _ => false
  | .aFsync _ _ => false
  | .aFallocate _ _ _ => false
  | .aTruncate _ _ _ => false
  | .aUnlink q _ => p == q
  | .aRename q1 q2 _ => p == q1 || p == q2
  | .aFree _ => false

/-- A concrete oracle on which every syscall succeeds and every open hands
out descriptor 3. -/
def oracleOk : OsOracle where
  openRes := fun _ => 3
  fallocateRes := fun _ _ => 0
  fsyncRes := fun _ => 0
  truncateRes := fun _ _ => 0
  unlinkRes := fun _ => 0
  renameRes := fun _ _ => 0

/-- A concrete oracle on which opening the directory "d" fails with code -13
while every other syscall succeeds. -/
def oracleDirOpenFails : OsOracle :=
  { oracleOk with openRes := fun p => if p = "d" then -13 else 3 }

/-- A concrete oracle on which truncate fails with code -9 while every other
syscall succeeds. -/
def oracleTruncateFails : OsOracle :=
  { oracleOk with truncateRes := fun _ _ => -9 }

/-- A concrete context holding a message left over from an earlier failed
operation. -/
def fsHeld : UvFs := { loop := 0, errmsg := some (Msg.sysErr "unlink" (-17)) }

/-- A concrete non-canceled request whose worker reported success with
descriptor 3. -/
def reqDone : CreateReq :=
  { dir := "d", filename := "f", size := 8, canceled := false, hasCb := true
    errmsg := none, status := 0, fd := 3 }

/-- The request reqDone with the cancellation flag set. -/
def reqDoneCanceled : CreateReq := { reqDone with canceled := true }

/-- A concrete canceled request whose worker reported failure. -/
def reqFailedCanceled : CreateReq :=
  { reqDone with canceled := true, status := UV__ERROR
                 errmsg := some (Msg.sysErr "open" (-13)) }

/-- Joining a filename onto a directory never yields the directory itself:
the joined path is strictly longer. -/
theorem UvOsJoin_ne_left (dir f : String) : UvOsJoin dir f ≠ dir := by
  intro h
  have h2 := congrArg String.length h
  simp only [UvOsJoin, String.length_append] at h2
  have h3 : ("/" : String).length = 1 := rfl
  omega

/-- Joining two different filenames onto the same directory yields two
different paths. -/
theorem UvOsJoin_inj_right {dir f1 f2 : String}
    (h : UvOsJoin dir f1 = UvOsJoin dir f2) : f1 = f2 := by
  have h2 := congrArg String.data h
  simp only [UvOsJoin, String.data_append, List.append_assoc,
    List.append_cancel_left_eq] at h2
  exact String.ext h2

/-- Releases filtered out of a release trace leave nothing. -/
theorem HeapFree_filter_no_free (m : Option Msg) :
    (HeapFree m).filter (fun a => !a.isFree) = [] := by
  cases m <;> simp [HeapFree, Action.isFree]

/-- The directory-sync helper performs no heap release. -/
theorem syncDirThreadSafe_filter_no_free (o : OsOracle) (dir : String) :
    (uvFsSyncDirThreadSafe o dir).trace.filter (fun a => !a.isFree)
      = (uvFsSyncDirThreadSafe o dir).trace := by
  simp only [uvFsSyncDirThreadSafe]
  split
  · simp [Action.isFree]
  · split <;> simp [Action.isFree]

/-- The directory-sync helper's status is either success or UV__ERROR. -/
theorem syncDirThreadSafe_rv_cases (o : OsOracle) (dir : String) :
    (uvFsSyncDirThreadSafe o dir).rv = 0
      ∨ (uvFsSyncDirThreadSafe o dir).rv = UV__ERROR := by
  simp only [uvFsSyncDirThreadSafe]
  split
  · simp
  · split <;> simp

/-- Every action of the directory-sync helper's trace is the directory open,
the descriptor fsync, or the descriptor close. -/
theorem mem_syncDirThreadSafe_trace (o : OsOracle) (dir : String) (a : Action)
    (ha : a ∈ (uvFsSyncDirThreadSafe o dir).trace) :
    a = Action.aOpen dir (o.openRes dir)
    ∨ a = Action.aFsync (o.openRes dir) (o.fsyncRes (o.openRes dir))
    ∨ a = Action.aClose (o.openRes dir) := by
  simp only [uvFsSyncDirThreadSafe] at ha
  split at ha
  · simp at ha
    tauto
  · split at ha <;> simp at ha <;> tauto

/-- C9: uvFsSyncDirThreadSafe returns the "open directory" system-call error
exactly when opening the directory read-only fails; otherwise it fsyncs the
opened descriptor, closes the descriptor regardless of the fsync result, and
returns the "fsync directory" system-call error exactly when the fsync
failed, success otherwise. -/
theorem syncDirThreadSafe_spec (o : OsOracle) (dir : String) :
    ((uvFsSyncDirThreadSafe o dir).rv = UV__ERROR
      ∧ (uvFsSyncDirThreadSafe o dir).msgOut
          = some (Msg.sysErr "open directory" (o.openRes dir))
      ↔ o.openRes dir < 0)
    ∧ (0 ≤ o.openRes dir →
        (uvFsSyncDirThreadSafe o dir).trace
          = [Action.aOpen dir (o.openRes dir),
             Action.aFsync (o.openRes dir) (o.fsyncRes (o.openRes dir)),
             Action.aClose (o.openRes dir)]
        ∧ ((uvFsSyncDirThreadSafe o dir).rv = UV__ERROR
            ∧ (uvFsSyncDirThreadSafe o dir).msgOut
                = some (Msg.sysErr "fsync directory"
                    (o.fsyncRes (o.openRes dir)))
            ↔ o.fsyncRes (o.openRes dir) ≠ 0)
        ∧ ((uvFsSyncDirThreadSafe o dir).rv = 0
            ↔ o.fsyncRes (o.openRes dir) = 0)) := by
  by_cases h : o.openRes dir < 0
  · have h2 : ¬ (0 : Int) ≤ o.openRes dir := by omega
    simp [uvFsSyncDirThreadSafe, h, h2, UV__ERROR]
  · by_cases h2 : o.fsyncRes (o.openRes dir) = 0 <;>
      simp [uvFsSyncDirThreadSafe, h, h2, UV__ERROR]

/-- C5: UvFsRemoveFile fails, with the "unlink" system-call error stored in
the context, exactly when the unlink syscall fails; when the unlink succeeds
the operation returns overall success regardless of the directory sync's
outcome. -/
theorem removeFile_spec (o : OsOracle) (fs : UvFs) (dir filename : String) :
    ((UvFsRemoveFile o fs dir filename).rv = UV__ERROR
       ↔ o.unlinkRes (UvOsJoin dir filename) ≠ 0)
    ∧ (o.unlinkRes (UvOsJoin dir filename) ≠ 0 →
        UvFsErrMsg (UvFsRemoveFile o fs dir filename).fs
          = some (Msg.sysErr "unlink" (o.unlinkRes (UvOsJoin dir filename))))
    ∧ (o.unlinkRes (UvOsJoin dir filename) = 0 →
        (UvFsRemoveFile o fs dir filename).rv = 0) := by
  by_cases h : o.unlinkRes (UvOsJoin dir filename) = 0 <;>
    simp [UvFsRemoveFile, UvFsSetErrMsg, UvFsErrMsg, h, UV__ERROR]

/-- C10: releasing an absent message is safe: HeapFree of none performs no
release at all, closing a freshly initialized context releases nothing, and
overwriting an absent message via UvFsSetErrMsg performs no release. -/
theorem heapFree_none_noop :
    HeapFree none = ([] : List Action)
    ∧ (∀ loop : Nat, UvFsClose (UvFsInit loop) = [])
    ∧ (∀ (loop : Nat) (m : Option Msg),
        (UvFsSetErrMsg { loop := loop, errmsg := none } m).2 = []) :=
  ⟨rfl, fun _ => rfl, fun _ _ => rfl⟩

/-- C1 counterexample: on the oracle where opening the file succeeds
(descriptor 3), preallocation succeeds, and the directory open inside the
final directory sync fails, UvFsCreateFile2 returns an error and does unlink
the fully created, preallocated file (and closes its descriptor): the claim
that no unlink cleanup occurs is false on this input. -/
theorem createFile2_dirsync_fail_unlinks :
    (UvFsCreateFile2 oracleDirOpenFails (UvFsInit 0) "d" "f" 8).rv = UV__ERROR
    ∧ Action.aUnlink "d/f" 0
        ∈ (UvFsCreateFile2 oracleDirOpenFails (UvFsInit 0) "d" "f" 8).trace
    ∧ Action.aClose 3
        ∈ (UvFsCreateFile2 oracleDirOpenFails (UvFsInit 0) "d" "f" 8).trace := by
  decide

/-- C1 amended: when the path join, the exclusive-create open and the
preallocation succeed but the final directory sync fails, UvFsCreateFile2
returns an error and performs the same cleanup as the earlier failure steps:
the descriptor is closed and the created file is unlinked, so it does not
remain on disk under its path. -/
theorem createFile2_dirsync_fail_cleanup (o : OsOracle) (fs : UvFs)
    (dir filename : String) (size : Nat)
    (hopen : 0 ≤ o.openRes (UvOsJoin dir filename))
    (halloc : o.fallocateRes (o.openRes (UvOsJoin dir filename)) size = 0)
    (hsync : (uvFsSyncDirThreadSafe o dir).rv ≠ 0) :
    (UvFsCreateFile2 o fs dir filename size).rv = UV__ERROR
    ∧ Action.aClose (o.openRes (UvOsJoin dir filename))
        ∈ (UvFsCreateFile2 o fs dir filename size).trace
    ∧ Action.aUnlink (UvOsJoin dir filename)
          (o.unlinkRes (UvOsJoin dir filename))
        ∈ (UvFsCreateFile2 o fs dir filename size).trace := by
  have h1 : ¬ o.openRes (UvOsJoin dir filename) < 0 := by omega
  have h2 := syncDirThreadSafe_rv_cases o dir
  have h3 : (uvFsSyncDirThreadSafe o dir).rv = UV__ERROR := by tauto
  simp [UvFsCreateFile2, h1, halloc, hsync, h3, UV__ERROR]

/-- C1 amended, witnessed at the concrete input of the counterexample. -/
theorem createFile2_dirsync_fail_cleanup_witness :
    (UvFsCreateFile2 oracleDirOpenFails fsHeld "d" "f" 8).rv = UV__ERROR
    ∧ Action.aClose (oracleDirOpenFails.openRes (UvOsJoin "d" "f"))
        ∈ (UvFsCreateFile2 oracleDirOpenFails fsHeld "d" "f" 8).trace
    ∧ Action.aUnlink (UvOsJoin "d" "f")
          (oracleDirOpenFails.unlinkRes (UvOsJoin "d" "f"))
        ∈ (UvFsCreateFile2 oracleDirOpenFails fsHeld "d" "f" 8).trace :=
  createFile2_dirsync_fail_cleanup oracleDirOpenFails fsHeld "d" "f" 8
    (by decide) (by decide) (by decide)

/-- C2 counterexample: finalizing a successful, non-canceled creation
request on a context that still holds the message of an earlier failure
leaves the context with no message at all: the previously held message is
not what the accessor observes afterwards. -/
theorem afterWork_success_clears_msg :
    UvFsErrMsg (uvFsCreateFileAfterWorkCb oracleOk fsHeld reqDone).fs = none
    ∧ UvFsErrMsg fsHeld = some (Msg.sysErr "unlink" (-17)) :=
  ⟨rfl, rfl⟩

/-- C2 amended: finalization of a non-canceled asynchronous creation request
always installs the request's message into the context, releasing only the
context's previous message; in particular, after a finalization with success
status the context's error message is cleared (absent), not left unchanged. -/
theorem afterWork_installs_req_msg (o : OsOracle) (fs : UvFs) (req : CreateReq)
    (h : req.canceled = false) :
    UvFsErrMsg (uvFsCreateFileAfterWorkCb o fs req).fs = req.errmsg
    ∧ (uvFsCreateFileAfterWorkCb o fs req).trace = HeapFree fs.errmsg := by
  simp [uvFsCreateFileAfterWorkCb, UvFsSetErrMsg, UvFsErrMsg, h]

/-- C2 amended, witnessed at the concrete input of the counterexample. -/
theorem afterWork_installs_req_msg_witness :
    UvFsErrMsg (uvFsCreateFileAfterWorkCb oracleOk fsHeld reqDone).fs
      = reqDone.errmsg
    ∧ (uvFsCreateFileAfterWorkCb oracleOk fsHeld reqDone).trace
        = HeapFree fsHeld.errmsg :=
  afterWork_installs_req_msg oracleOk fsHeld reqDone rfl

/-- C3: at the failing input (a context holding an earlier message, a
removal whose unlink succeeds and whose directory-sync open fails) the code
stores the new "open directory" message into the context while performing no
release of the previously held message: the predecessor leaks. -/
theorem syncDir_overwrites_without_release :
    UvFsErrMsg (UvFsRemoveFile oracleDirOpenFails fsHeld "d" "f").fs
      = some (Msg.sysErr "open directory" (-13))
    ∧ (UvFsRemoveFile oracleDirOpenFails fsHeld "d" "f").rv = 0
    ∧ Action.aFree (Msg.sysErr "unlink" (-17))
        ∉ (UvFsRemoveFile oracleDirOpenFails fsHeld "d" "f").trace
    ∧ UvFsErrMsg fsHeld = some (Msg.sysErr "unlink" (-17)) := by
  decide

/-- An open syscall is not a release. -/
theorem isFree_aOpen (p : String) (r : Int) :
    (Action.aOpen p r).isFree = false := rfl

/-- A close syscall is not a release. -/
theorem isFree_aClose (fd : Int) : (Action.aClose fd).isFree = false := rfl

/-- A preallocation syscall is not a release. -/
theorem isFree_aFallocate (fd : Int) (s : Nat) (r : Int) :
    (Action.aFallocate fd s r).isFree = false := rfl

/-- An unlink syscall is not a release. -/
theorem isFree_aUnlink (p : String) (r : Int) :
    (Action.aUnlink p r).isFree = false := rfl

/-- Every action of a release trace is a release. -/
theorem mem_HeapFree (m : Option Msg) (a : Action) (ha : a ∈ HeapFree m) :
    ∃ m2, a = Action.aFree m2 := by
  cases m <;> simp [HeapFree] at ha
  exact ⟨_, ha⟩

/-- The directory open is always part of the directory-sync trace. -/
theorem aOpen_mem_syncDirThreadSafe (o : OsOracle) (dir : String) :
    Action.aOpen dir (o.openRes dir) ∈ (uvFsSyncDirThreadSafe o dir).trace := by
  simp only [uvFsSyncDirThreadSafe]
  split
  · simp
  · split <;> simp

/-- C4: for a canceled request at finalization time: when the worker
reported success the finalizer closes the descriptor and unlinks the created
file; when the worker reported failure the worker's message is released; and
in both cases the context receives the "canceled" message and the completion
callback (when set) is invoked with UV__CANCELED, never the worker's own
outcome. -/
theorem afterWork_canceled_spec (o : OsOracle) (fs : UvFs) (req : CreateReq)
    (h : req.canceled = true) :
    (uvFsCreateFileAfterWorkCb o fs req).req.status = UV__CANCELED
    ∧ UvFsErrMsg (uvFsCreateFileAfterWorkCb o fs req).fs = some Msg.canceled
    ∧ (req.hasCb = true →
        (uvFsCreateFileAfterWorkCb o fs req).cbStatus = some UV__CANCELED)
    ∧ (req.status = 0 →
        Action.aClose req.fd ∈ (uvFsCreateFileAfterWorkCb o fs req).trace
        ∧ Action.aUnlink (UvOsJoin req.dir req.filename)
            (o.unlinkRes (UvOsJoin req.dir req.filename))
            ∈ (uvFsCreateFileAfterWorkCb o fs req).trace)
    ∧ (∀ m, req.status ≠ 0 → req.errmsg = some m →
        Action.aFree m ∈ (uvFsCreateFileAfterWorkCb o fs req).trace) := by
  by_cases h0 : req.status = 0
  · simp [uvFsCreateFileAfterWorkCb, UvFsSetErrMsg, UvFsErrMsg, h, h0]
  · refine ⟨?_, ?_, ?_, ?_, ?_⟩ <;>
      simp [uvFsCreateFileAfterWorkCb, UvFsSetErrMsg, UvFsErrMsg, h, h0]
    intro m hme
    simp [hme, HeapFree]

/-- C4, witnessed at a concrete canceled request whose worker succeeded. -/
theorem afterWork_canceled_spec_witness :
    (uvFsCreateFileAfterWorkCb oracleOk fsHeld reqDoneCanceled).req.status
      = UV__CANCELED
    ∧ UvFsErrMsg (uvFsCreateFileAfterWorkCb oracleOk fsHeld reqDoneCanceled).fs
        = some Msg.canceled
    ∧ (reqDoneCanceled.hasCb = true →
        (uvFsCreateFileAfterWorkCb oracleOk fsHeld reqDoneCanceled).cbStatus
          = some UV__CANCELED)
    ∧ (reqDoneCanceled.status = 0 →
        Action.aClose reqDoneCanceled.fd
          ∈ (uvFsCreateFileAfterWorkCb oracleOk fsHeld reqDoneCanceled).trace
        ∧ Action.aUnlink (UvOsJoin reqDoneCanceled.dir reqDoneCanceled.filename)
            (oracleOk.unlinkRes
              (UvOsJoin reqDoneCanceled.dir reqDoneCanceled.filename))
            ∈ (uvFsCreateFileAfterWorkCb oracleOk fsHeld reqDoneCanceled).trace)
    ∧ (∀ m, reqDoneCanceled.status ≠ 0 → reqDoneCanceled.errmsg = some m →
        Action.aFree m
          ∈ (uvFsCreateFileAfterWorkCb oracleOk fsHeld reqDoneCanceled).trace) :=
  afterWork_canceled_spec oracleOk fsHeld reqDoneCanceled rfl

/-- C6: for truncate-and-rename with nonzero size, on any failure after the
source file was opened (truncate failing, file fsync failing, or rename
failing) the opened descriptor is closed, an error is reported with a
system-call message stored in the context, and no unlink is ever performed:
the source file stays in place. -/
theorem truncateAndRename_fail_no_unlink (o : OsOracle) (fs : UvFs)
    (dir : String) (size : Nat) (f1 f2 : String)
    (hsz : size ≠ 0)
    (hopen : 0 ≤ o.openRes (UvOsJoin dir f1))
    (hfail :
      o.truncateRes (o.openRes (UvOsJoin dir f1)) size ≠ 0
      ∨ (o.truncateRes (o.openRes (UvOsJoin dir f1)) size = 0
         ∧ o.fsyncRes (o.openRes (UvOsJoin dir f1)) ≠ 0)
      ∨ (o.truncateRes (o.openRes (UvOsJoin dir f1)) size = 0
         ∧ o.fsyncRes (o.openRes (UvOsJoin dir f1)) = 0
         ∧ o.renameRes (UvOsJoin dir f1) (UvOsJoin dir f2) ≠ 0)) :
    (UvFsTruncateAndRenameFile o fs dir size f1 f2).rv = UV__ERROR
    ∧ Action.aClose (o.openRes (UvOsJoin dir f1))
        ∈ (UvFsTruncateAndRenameFile o fs dir size f1 f2).trace
    ∧ (UvFsErrMsg (UvFsTruncateAndRenameFile o fs dir size f1 f2).fs).isSome
        = true
    ∧ ∀ a ∈ (UvFsTruncateAndRenameFile o fs dir size f1 f2).trace,
        a.isUnlink = false := by
  have h1 : ¬ o.openRes (UvOsJoin dir f1) < 0 := by omega
  rcases hfail with ht | ⟨ht, hf⟩ | ⟨ht, hf, hr⟩
  · refine ⟨?_, ?_, ?_, fun a ha => ?_⟩
    · simp [UvFsTruncateAndRenameFile, UvFsSetErrMsg, hsz, h1, ht]
    · simp [UvFsTruncateAndRenameFile, UvFsSetErrMsg, hsz, h1, ht]
    · simp [UvFsTruncateAndRenameFile, UvFsSetErrMsg, UvFsErrMsg, hsz, h1, ht]
    · simp [UvFsTruncateAndRenameFile, UvFsSetErrMsg, hsz, h1, ht] at ha
      rcases ha with rfl | rfl | rfl | h2
      · rfl
      · rfl
      · rfl
      · rcases mem_HeapFree _ _ h2 with ⟨m2, rfl⟩
        rfl
  · refine ⟨?_, ?_, ?_, fun a ha => ?_⟩
    · simp [UvFsTruncateAndRenameFile, UvFsSetErrMsg, hsz, h1, ht, hf]
    · simp [UvFsTruncateAndRenameFile, UvFsSetErrMsg, hsz, h1, ht, hf]
    · simp [UvFsTruncateAndRenameFile, UvFsSetErrMsg, UvFsErrMsg, hsz, h1,
        ht, hf]
    · simp [UvFsTruncateAndRenameFile, UvFsSetErrMsg, hsz, h1, ht, hf] at ha
      rcases ha with rfl | rfl | rfl | rfl | h2
      · rfl
      · rfl
      · rfl
      · rfl
      · rcases mem_HeapFree _ _ h2 with ⟨m2, rfl⟩
        rfl
  · refine ⟨?_, ?_, ?_, fun a ha => ?_⟩
    · simp [UvFsTruncateAndRenameFile, UvFsSetErrMsg, hsz, h1, ht, hf, hr]
    · simp [UvFsTruncateAndRenameFile, UvFsSetErrMsg, hsz, h1, ht, hf, hr]
    · simp [UvFsTruncateAndRenameFile, UvFsSetErrMsg, UvFsErrMsg, hsz, h1,
        ht, hf, hr]
    · simp [UvFsTruncateAndRenameFile, UvFsSetErrMsg, hsz, h1, ht, hf, hr]
        at ha
      rcases ha with rfl | rfl | rfl | rfl | rfl | h2
      · rfl
      · rfl
      · rfl
      · rfl
      · rfl
      · rcases mem_HeapFree _ _ h2 with ⟨m2, rfl⟩
        rfl

/-- C6, witnessed at a concrete input whose truncate fails. -/
theorem truncateAndRename_fail_no_unlink_witness :
    (UvFsTruncateAndRenameFile oracleTruncateFails fsHeld "d" 8 "f" "g").rv
      = UV__ERROR
    ∧ Action.aClose (oracleTruncateFails.openRes (UvOsJoin "d" "f"))
        ∈ (UvFsTruncateAndRenameFile oracleTruncateFails fsHeld "d" 8 "f" "g").trace
    ∧ (UvFsErrMsg
        (UvFsTruncateAndRenameFile oracleTruncateFails fsHeld "d" 8 "f" "g").fs).isSome
        = true
    ∧ ∀ a ∈ (UvFsTruncateAndRenameFile oracleTruncateFails fsHeld "d" 8 "f" "g").trace,
        a.isUnlink = false :=
  truncateAndRename_fail_no_unlink oracleTruncateFails fsHeld "d" 8 "f" "g"
    (by decide) (by decide) (Or.inl (by decide))

/-- C7: truncate-and-rename with size zero unlinks the source file and
proceeds directly to the directory sync: the whole trace performs no
truncate, no rename, no open of the source file, and touches the
destination name in no way. -/
theorem truncateAndRename_zero_spec (o : OsOracle) (fs : UvFs)
    (dir f1 f2 : String) (hne : f1 ≠ f2) :
    Action.aUnlink (UvOsJoin dir f1) (o.unlinkRes (UvOsJoin dir f1))
        ∈ (UvFsTruncateAndRenameFile o fs dir 0 f1 f2).trace
    ∧ (o.unlinkRes (UvOsJoin dir f1) = 0 →
        Action.aOpen dir (o.openRes dir)
          ∈ (UvFsTruncateAndRenameFile o fs dir 0 f1 f2).trace)
    ∧ ∀ a ∈ (UvFsTruncateAndRenameFile o fs dir 0 f1 f2).trace,
        a.isTruncate = false ∧ a.isRename = false
        ∧ a.opensPath (UvOsJoin dir f1) = false
        ∧ a.mentionsPath (UvOsJoin dir f2) = false := by
  have hp : UvOsJoin dir f2 ≠ UvOsJoin dir f1 := by
    intro hcontra
    exact hne (UvOsJoin_inj_right hcontra).symm
  have hd1 : UvOsJoin dir f1 ≠ dir := UvOsJoin_ne_left dir f1
  have hd2 : UvOsJoin dir f2 ≠ dir := UvOsJoin_ne_left dir f2
  by_cases hu : o.unlinkRes (UvOsJoin dir f1) = 0
  · refine ⟨?_, fun _ => ?_, fun a ha => ?_⟩
    · simp [UvFsTruncateAndRenameFile, uvFsSyncDir, hu]
    · simp [UvFsTruncateAndRenameFile, uvFsSyncDir, hu,
        aOpen_mem_syncDirThreadSafe]
    · simp [UvFsTruncateAndRenameFile, uvFsSyncDir, hu] at ha
      rcases ha with rfl | h2
      · refine ⟨rfl, rfl, rfl, ?_⟩
        simp [Action.mentionsPath, beq_eq_false_iff_ne, hp]
      · rcases mem_syncDirThreadSafe_trace o dir a h2 with rfl | rfl | rfl
        · refine ⟨rfl, rfl, ?_, ?_⟩
          · simp [Action.opensPath, beq_eq_false_iff_ne, hd1]
          · simp [Action.mentionsPath, beq_eq_false_iff_ne, hd2]
        · exact ⟨rfl, rfl, rfl, rfl⟩
        · exact ⟨rfl, rfl, rfl, rfl⟩
  · refine ⟨?_, fun hcontra => absurd hcontra hu, fun a ha => ?_⟩
    · simp [UvFsTruncateAndRenameFile, UvFsSetErrMsg, hu]
    · simp [UvFsTruncateAndRenameFile, UvFsSetErrMsg, hu] at ha
      rcases ha with rfl | h2
      · refine ⟨rfl, rfl, rfl, ?_⟩
        simp [Action.mentionsPath, beq_eq_false_iff_ne, hp]
      · rcases mem_HeapFree _ _ h2 with ⟨m2, rfl⟩
        exact ⟨rfl, rfl, rfl, rfl⟩

/-- C7, witnessed at a concrete input with distinct source and destination. -/
theorem truncateAndRename_zero_spec_witness :
    Action.aUnlink (UvOsJoin "d" "f") (oracleOk.unlinkRes (UvOsJoin "d" "f"))
        ∈ (UvFsTruncateAndRenameFile oracleOk fsHeld "d" 0 "f" "g").trace
    ∧ (oracleOk.unlinkRes (UvOsJoin "d" "f") = 0 →
        Action.aOpen "d" (oracleOk.openRes "d")
          ∈ (UvFsTruncateAndRenameFile oracleOk fsHeld "d" 0 "f" "g").trace)
    ∧ ∀ a ∈ (UvFsTruncateAndRenameFile oracleOk fsHeld "d" 0 "f" "g").trace,
        a.isTruncate = false ∧ a.isRename = false
        ∧ a.opensPath (UvOsJoin "d" "f") = false
        ∧ a.mentionsPath (UvOsJoin "d" "g") = false :=
  truncateAndRename_zero_spec oracleOk fsHeld "d" "f" "g" (by decide)

/-- C8: for every oracle and request, the asynchronous creation worker
performs exactly the syscall sequence of the synchronous UvFsCreateFile2
(whose trace additionally holds only the context's message release), with
the same status and the same error message, on-error cleanup included, and
on success the same descriptor; it writes the outcome only into the request
object while the synchronous form stores the message in the context. -/
theorem workCb_equiv_createFile2 (o : OsOracle) (fs : UvFs) (req : CreateReq) :
    (uvFsCreateFileWorkCb o req).trace
      = ((UvFsCreateFile2 o fs req.dir req.filename req.size).trace.filter
          (fun a => !a.isFree))
    ∧ (uvFsCreateFileWorkCb o req).req.status
        = (UvFsCreateFile2 o fs req.dir req.filename req.size).rv
    ∧ ((UvFsCreateFile2 o fs req.dir req.filename req.size).rv ≠ 0 →
        (uvFsCreateFileWorkCb o req).req.errmsg
          = UvFsErrMsg (UvFsCreateFile2 o fs req.dir req.filename req.size).fs)
    ∧ ((UvFsCreateFile2 o fs req.dir req.filename req.size).rv = 0 →
        (uvFsCreateFileWorkCb o req).req.errmsg = none
        ∧ (UvFsCreateFile2 o fs req.dir req.filename req.size).fs = fs
        ∧ (UvFsCreateFile2 o fs req.dir req.filename req.size).fdOut
            = some (uvFsCreateFileWorkCb o req).req.fd) := by
  by_cases h1 : o.openRes (UvOsJoin req.dir req.filename) < 0
  · simp [uvFsCreateFileWorkCb, UvFsCreateFile2, UvFsSetErrMsg, UvFsErrMsg,
      h1, UV__ERROR, List.filter_append, HeapFree_filter_no_free,
      isFree_aOpen, isFree_aClose, isFree_aFallocate, isFree_aUnlink]
  · by_cases h2 : o.fallocateRes (o.openRes (UvOsJoin req.dir req.filename))
        req.size = 0
    · by_cases h3 : (uvFsSyncDirThreadSafe o req.dir).rv = 0
      · simp [uvFsCreateFileWorkCb, UvFsCreateFile2, UvFsSetErrMsg, UvFsErrMsg,
          h1, h2, h3, List.filter_append, HeapFree_filter_no_free,
          syncDirThreadSafe_filter_no_free,
          isFree_aOpen, isFree_aClose, isFree_aFallocate, isFree_aUnlink]
      · have h4 : (uvFsSyncDirThreadSafe o req.dir).rv = UV__ERROR := by
          rcases syncDirThreadSafe_rv_cases o req.dir with h | h
          · exact absurd h h3
          · exact h
        simp [uvFsCreateFileWorkCb, UvFsCreateFile2, UvFsSetErrMsg, UvFsErrMsg,
          h1, h2, h3, h4, UV__ERROR, List.filter_append,
          HeapFree_filter_no_free, syncDirThreadSafe_filter_no_free,
          isFree_aOpen, isFree_aClose, isFree_aFallocate, isFree_aUnlink]
    · simp [uvFsCreateFileWorkCb, UvFsCreateFile2, UvFsSetErrMsg, UvFsErrMsg,
        h1, h2, UV__ERROR, List.filter_append, HeapFree_filter_no_free,
        isFree_aOpen, isFree_aClose, isFree_aFallocate, isFree_aUnlink]

end Raft
